import Mathlib

/-!
Verification of the Trip Resolution Core and frontend logic of the
AI Pakistan Travel Planner & Safety Guide.

The repository ships the frontend (React) sources and the project
documentation; the backend service code (route resolution, safety
scoring, budget allocation, itinerary assembly) is referenced by the
documentation but is not present in the source tree, so those
components are modelled here directly from the specification, as
noted on each definition.  The frontend functions (safety-map risk
aggregation, alert placement, trip-wizard traveler counter) are
embedded from the JavaScript sources.
-/

/-! ## Shared enumerations -/

/-- Travel style selected in the trip wizard (TripWizard.jsx TRAVEL_STYLES). -/
inductive Style
  | budget
  | comfort
  | adventure
  | luxury
deriving DecidableEq

/-- Budget envelope category (spec 4.3). -/
inductive BudgetCategory
  | transport
  | accommodation
  | food
  | activities
  | buffer
deriving DecidableEq, BEq

/-- Hazard / alert severity (spec 3, SafetyMap.jsx severityOrder keys). -/
inductive Severity
  | low
  | medium
  | high
  | critical
deriving DecidableEq

/-- Discrete risk tier (spec 4.2). -/
inductive Tier
  | recommended
  | caution
  | avoid
deriving DecidableEq

/-- Travel type selected in the trip wizard (TripWizard.jsx travel-type cards). -/
inductive TravelType
  | solo
  | couple
  | family
  | group
deriving DecidableEq

/-! ## BudgetAllocator (modelled from the spec) -/

/-- Modelled from the spec: lower end of each category's guardrail
percentage range (spec 4.3: transport 30-40, accommodation 25-35,
food 15-20, activities 10-15, buffer fixed minimum 10).  The backend
allocator source is absent from the tree. -/
def guardrailLo : BudgetCategory → Nat
  | .transport => 30
  | .accommodation => 25
  | .food => 15
  | .activities => 10
  | .buffer => 10

/-- Modelled from the spec: upper end of each category's guardrail
percentage range; the buffer has only a fixed minimum, so its upper
bound is the whole budget. -/
def guardrailHi : BudgetCategory → Nat
  | .transport => 40
  | .accommodation => 35
  | .food => 20
  | .activities => 15
  | .buffer => 100

/-- Modelled from the spec: raw percentage chosen for each category by
style (spec 4.3).  Budget biases transport high and accommodation and
activities low; luxury biases the opposite way; comfort and adventure
sit near the midpoints.  Concrete in-range values are chosen so the
raw percentages of every style already sum to 100. -/
def rawPct : Style → BudgetCategory → Nat
  | .budget, .transport => 40
  | .budget, .accommodation => 25
  | .budget, .food => 15
  | .budget, .activities => 10
  | .budget, .buffer => 10
  | .comfort, .transport => 35
  | .comfort, .accommodation => 28
  | .comfort, .food => 16
  | .comfort, .activities => 11
  | .comfort, .buffer => 10
  | .adventure, .transport => 35
  | .adventure, .accommodation => 28
  | .adventure, .food => 16
  | .adventure, .activities => 11
  | .adventure, .buffer => 10
  | .luxury, .transport => 30
  | .luxury, .accommodation => 32
  | .luxury, .food => 15
  | .luxury, .activities => 13
  | .luxury, .buffer => 10

/-- The five envelope categories in allocation order. -/
def catList : List BudgetCategory :=
  [.transport, .accommodation, .food, .activities, .buffer]

/-- Sum of the raw percentages of a style. -/
def pctSum (s : Style) : Nat := (catList.map (rawPct s)).sum

/-- Modelled from the spec: the raw percentages are scaled so that the
five categories sum to exactly 100 percent (spec 4.3). -/
def scaledPct (s : Style) (c : BudgetCategory) : Nat :=
  rawPct s c * 100 / pctSum s

/-- Modelled from the spec: integer PKR amount for one category,
computed as the floor of total times percentage (spec 4.3). -/
def rawAmount (total : Nat) (s : Style) (c : BudgetCategory) : Nat :=
  total * scaledPct s c / 100

/-- Sum of the floored category amounts before remainder assignment. -/
def rawSum (total : Nat) (s : Style) : Nat :=
  (catList.map (rawAmount total s)).sum

/-- Modelled from the spec: final envelope amount; the integer rounding
remainder is assigned to the buffer envelope (spec 4.3). -/
def allocAmount (total : Nat) (s : Style) (c : BudgetCategory) : Nat :=
  if c = BudgetCategory.buffer then
    rawAmount total s c + (total - rawSum total s)
  else
    rawAmount total s c

/-- A budget envelope: category, integer PKR amount, percentage of total
(spec 3, BudgetEnvelope). -/
structure Envelope where
  category : BudgetCategory
  amount : Nat
  pct : Nat
deriving DecidableEq

/-- Modelled from the spec: minimum viable per-person-per-day PKR
threshold for each style (spec 4.3 requires such a floor; the concrete
values are representative, chosen within the documented PKR budget
scale of the wizard). -/
def minPerPersonDay : Style → Nat
  | .budget => 3000
  | .comfort => 5000
  | .adventure => 4000
  | .luxury => 8000

/-- Modelled from the spec: BudgetAllocator.allocate (spec 4.3).
Rejects an invalid traveler count or duration and a total below the
minimum viable floor (spec 7, input errors); otherwise produces the
five envelopes with floored amounts and the rounding remainder
assigned to the buffer. -/
def allocate (total people days : Nat) (s : Style) :
    Except String (List Envelope) :=
  if 1 ≤ people ∧ 1 ≤ days ∧ minPerPersonDay s * people * days ≤ total then
    Except.ok (catList.map (fun c =>
      { category := c, amount := allocAmount total s c, pct := scaledPct s c }))
  else
    Except.error ("invalid input or budget below minimum viable floor of "
      ++ toString (minPerPersonDay s * people * days))

/-! ## SafetyScorer (modelled from the spec) -/

/-- Hazard type (spec 3, HazardSignal). -/
inductive HazardType
  | flood
  | fog
  | snow
  | closure
  | other
deriving DecidableEq

/-- A transient hazard signal for a region (spec 3, HazardSignal). -/
structure HazardSignal where
  region : String
  htype : HazardType
  severity : Severity
  active : Bool
  description : String
deriving DecidableEq

/-- Modelled from the spec: severity-weighted penalty applied per active
hazard (spec 4.2: low 5, medium 15, high 30, critical 50). -/
def penalty : Severity → Nat
  | .low => 5
  | .medium => 15
  | .high => 30
  | .critical => 50

/-- A hazard counts against a region when it is active and tagged with
that region (spec 4.2). -/
def activeIn (region : String) (h : HazardSignal) : Bool :=
  h.active && h.region == region

/-- Human-readable warning per hazard type, deduplicated by type in the
scorer output (spec 4.2). -/
def hazardWarning : HazardType → String
  | .flood => "Flood risk reported in the region"
  | .fog => "Dense fog reported on the route"
  | .snow => "Snowfall reported on the route"
  | .closure => "Road closure reported in the region"
  | .other => "Hazard reported in the region"

/-- Modelled from the spec: the numeric safety score.  Starting from the
base safety score, each active hazard in the region subtracts its
severity penalty; natural-number subtraction floors the result at 0
(spec 4.2). -/
def scoreValue (region : String) (base : Nat) (hs : List HazardSignal) : Nat :=
  (hs.filter (activeIn region)).foldl (fun s h => s - penalty h.severity) base

/-- Modelled from the spec: threshold map from score to tier
(spec 4.2: at least 70 recommended, 40 to 69 caution, below 40 avoid). -/
def tierOf (s : Nat) : Tier :=
  if 70 ≤ s then Tier.recommended
  else if 40 ≤ s then Tier.caution
  else Tier.avoid

/-- SafetyScorer output (spec 4.2 contract). -/
structure ScoreResult where
  score : Nat
  tier : Tier
  warnings : List String
deriving DecidableEq

/-- Modelled from the spec: SafetyScorer.score (spec 4.2 contract,
score(region, baseRisk) with the region's active hazard signals). -/
def SafetyScorer.score (region : String) (base : Nat)
    (hs : List HazardSignal) : ScoreResult :=
  let v := scoreValue region base hs
  { score := v
    tier := tierOf v
    warnings :=
      ((hs.filter (activeIn region)).map (fun h => hazardWarning h.htype)).eraseDups }

/-- A place: name, region tag and base altitude (spec 3, Place). -/
structure Place where
  name : String
  region : String
  altitude : Nat
deriving DecidableEq

/-- The altitude warning appended for any place above 2500 m (spec 4.2). -/
def altitudeWarning : String :=
  "High altitude: risk of altitude sickness, plan acclimatization"

/-- Modelled from the spec: the tier is never better than caution for a
place above 3500 m (spec 4.2 special rule). -/
def capTier : Tier → Tier
  | .recommended => Tier.caution
  | t => t

/-- Modelled from the spec: place-level assessment applying the altitude
special rule on top of the weather-derived score (spec 4.2: above
2500 m always append the altitude warning; above 3500 m cap the tier
at caution). -/
def assessPlace (p : Place) (base : Nat) (hs : List HazardSignal) : ScoreResult :=
  let r := SafetyScorer.score p.region base hs
  let r1 :=
    if 2500 < p.altitude then
      { r with warnings := r.warnings ++ [altitudeWarning] }
    else r
  if 3500 < p.altitude then { r1 with tier := capTier r1.tier } else r1

/-! ## RouteResolver (modelled from the spec) -/

/-- Which cascade tier answered a route query (spec 3, RouteFact.source). -/
inductive RouteSource
  | live
  | persisted
  | fallback
deriving DecidableEq

/-- A resolved route fact (spec 3, RouteFact). -/
structure RouteFact where
  origin : String
  dest : String
  distance_km : Nat
  time_hours : Nat
  base_safety_score : Nat
  source : RouteSource
  fetched_at : Nat
deriving DecidableEq

/-- Answer of the live routing provider (spec 6). -/
structure LiveResult where
  distance_km : Nat
  time_hours : Nat
deriving DecidableEq

/-- The supported destination set (project docs: 8 major tourist areas;
the wizard and docs name Hunza, Skardu, Swat, Naran, Kaghan, Murree,
Chitral, Gilgit). -/
def supportedDests : List String :=
  ["Hunza", "Skardu", "Swat", "Naran", "Kaghan", "Murree", "Chitral", "Gilgit"]

/-- The persisted route store, keyed by ordered place pair (spec 6).
The newest write for a key is consulted first, giving last-writer-wins
upsert semantics. -/
structure ResolverState where
  store : List ((String × String) × RouteFact)
deriving DecidableEq

/-- Look a fact up in the persisted store by ordered pair. -/
def storeGet (st : ResolverState) (o d : String) : Option RouteFact :=
  (st.store.find? (fun e => e.1.1 == o && e.1.2 == d)).map (fun e => e.2)

/-- Write a fact through to the persisted store (spec 4.1 write-through
cache; prepending makes the newest write win every later lookup). -/
def upsert (st : ResolverState) (f : RouteFact) : ResolverState :=
  { store := ((f.origin, f.dest), f) :: st.store }

/-- Modelled from the spec: base safety score attached to a resolved
route, per destination (spec 3 carries it on the RouteFact). -/
def baseScoreFor (d : String) : Nat :=
  if d = "Hunza" ∨ d = "Skardu" ∨ d = "Gilgit" then 75 else 80

/-- Modelled from the spec: the curated static fallback distance and
time table, total over every pair via symmetric lookup with a curated
default (spec 4.1: the fallback tier must cover every pair reachable
from the supported destination list). -/
def fallbackRoutes : List ((String × String) × (Nat × Nat)) :=
  [ (("Islamabad", "Hunza"), (600, 14))
  , (("Islamabad", "Skardu"), (630, 16))
  , (("Islamabad", "Swat"), (250, 5))
  , (("Islamabad", "Naran"), (270, 6))
  , (("Islamabad", "Kaghan"), (250, 6))
  , (("Islamabad", "Murree"), (70, 2))
  , (("Islamabad", "Chitral"), (400, 10))
  , (("Islamabad", "Gilgit"), (490, 12)) ]

/-- Distance and time from the static fallback table, symmetric lookup,
total via the curated default. -/
def fallbackDistTime (o d : String) : Nat × Nat :=
  (((fallbackRoutes.find? (fun e =>
      (e.1.1 == o && e.1.2 == d) || (e.1.1 == d && e.1.2 == o))).map
    (fun e => e.2)).getD (500, 12))

/-- Modelled from the spec: the RouteFact produced by the static
fallback tier (spec 4.1), tagged source fallback. -/
def fallbackFact (o d : String) : RouteFact :=
  { origin := o
    dest := d
    distance_km := (fallbackDistTime o d).1
    time_hours := (fallbackDistTime o d).2
    base_safety_score := baseScoreFor d
    source := RouteSource.fallback
    fetched_at := 0 }

/-- Modelled from the spec: RouteResolver.resolve (spec 4.1).  Tries the
live provider first and writes a success through to the persisted
store stamped with the current time; on provider failure falls through
to the persisted tier (ordered pair, then reversed pair), then to the
static fallback table.  Only an unsupported destination is an error. -/
def resolve (live : String → String → Option LiveResult) (now : Nat)
    (st : ResolverState) (o d : String) :
    Except String (RouteFact × ResolverState) :=
  if d ∈ supportedDests then
    match live o d with
    | some r =>
        let f : RouteFact :=
          { origin := o, dest := d, distance_km := r.distance_km
            time_hours := r.time_hours, base_safety_score := baseScoreFor d
            source := RouteSource.live, fetched_at := now }
        Except.ok (f, upsert st f)
    | none =>
        match storeGet st o d with
        | some f => Except.ok ({ f with source := RouteSource.persisted }, st)
        | none =>
            match storeGet st d o with
            | some f => Except.ok ({ f with source := RouteSource.persisted }, st)
            | none => Except.ok (fallbackFact o d, st)
  else
    Except.error ("unsupported destination: " ++ d)

/-! ## ItineraryAssembler (modelled from the spec) -/

/-- One day of the assembled plan (spec 3, DayPlan). -/
structure DayPlan where
  index : Nat
  origin : String
  dest : String
  departureHour : Nat
  transportMode : String
  transportCost : Nat
  hotelCost : Nat
  mealCost : Nat
  activities : List String
  isRest : Bool
  safetyNotes : List String
deriving DecidableEq

/-- A structured trip request (spec 4.4 contract of assemble). -/
structure TripRequest where
  destination : String
  durationDays : Nat
  numPeople : Nat
  budget : Nat
  travelType : TravelType
  style : Style
  originCity : String
deriving DecidableEq

/-- The assembled plan (spec 3, TripPlan). -/
structure TripPlan where
  days : List DayPlan
  envelopes : List Envelope
  safetyNote : String
deriving DecidableEq

/-- Placeholder day used only as the default of an out-of-range index
lookup. -/
def emptyDay : DayPlan :=
  { index := 0, origin := "", dest := "", departureHour := 6
    transportMode := "", transportCost := 0, hotelCost := 0, mealCost := 0
    activities := [], isRest := false, safetyNotes := [] }

/-- The day at an index, with the placeholder as out-of-range default. -/
def dayAt (days : List DayPlan) (i : Nat) : DayPlan :=
  (days[i]?).getD emptyDay

/-- Modelled from the spec: shared or private transport mode by style. -/
def styleMode : Style → String
  | .budget => "Shared bus"
  | .comfort => "Private car"
  | .adventure => "4x4 jeep"
  | .luxury => "Private SUV"

/-- Modelled from the spec: group-vehicle sizing (spec 4.4 step 3:
family or 8 or more people prefer private or group vehicles, Hiace for
4 to 7 and Coaster for 8 or more, over shared transport). -/
def transportModeFor (req : TripRequest) : String :=
  if req.travelType = TravelType.family ∨ 8 ≤ req.numPeople then
    if 8 ≤ req.numPeople then "Coaster" else "Hiace"
  else styleMode req.style

/-- Modelled from the spec: the leg of a day (spec 4.4 step 1: origin to
destination on day 1, intra-destination legs on middle days,
destination to origin on the last day). -/
def legFor (req : TripRequest) (i : Nat) : String × String :=
  if i = 0 then (req.originCity, req.destination)
  else if i + 1 = req.durationDays then (req.destination, req.originCity)
  else (req.destination, req.destination)

/-- Modelled from the spec: skeleton departure hour of a day; the
budget style uses the cheap overnight bus slot for the outbound leg,
other styles leave early in the morning. -/
def depHourFor (req : TripRequest) (i : Nat) : Nat :=
  if i = 0 then (if req.style = Style.budget then 20 else 6)
  else if i + 1 = req.durationDays then 7
  else 9

/-- Modelled from the spec: the day-skeleton activity list; travel days
are less activity-dense than middle days. -/
def activitiesFor (req : TripRequest) (i : Nat) : List String :=
  if i = 0 ∨ i + 1 = req.durationDays then ["Travel leg"]
  else ["Sightseeing", "Local excursion", "Leisure walk"]

/-- Modelled from the spec: one skeleton day (spec 4.4 steps 1 and 3),
costs filled in later by the costing step. -/
def skeletonDay (req : TripRequest) (i : Nat) : DayPlan :=
  { index := i
    origin := (legFor req i).1
    dest := (legFor req i).2
    departureHour := depHourFor req i
    transportMode := transportModeFor req
    transportCost := 0, hotelCost := 0, mealCost := 0
    activities := activitiesFor req i
    isRest := false
    safetyNotes := [] }

/-- Modelled from the spec: the destination day-skeleton template, one
day per requested duration day. -/
def skeleton (req : TripRequest) : List DayPlan :=
  (List.range req.durationDays).map (skeletonDay req)

/-- Modelled from the spec: the night window around the sunset proxy
hour (spec 4.4 step 3 and 9: no departures after the sunset proxy,
here 18:00, nor before first light at 05:00). -/
def nightWindow (h : Nat) : Bool := 18 ≤ h || h < 5

/-- Modelled from the spec: shift a night departure to the next viable
daylight slot, 06:00 (spec 4.4 step 3). -/
def shiftToDaylight (h : Nat) : Nat := if nightWindow h then 6 else h

/-- Shift one day's departure out of the night window. -/
def shiftDay (d : DayPlan) : DayPlan :=
  { d with departureHour := shiftToDaylight d.departureHour }

/-- Modelled from the spec: the no-night-departure policy applies to
family trips and to groups of 8 or more (spec 4.4 step 3). -/
def applyNightPolicy (req : TripRequest) (days : List DayPlan) : List DayPlan :=
  if req.travelType = TravelType.family ∨ 8 ≤ req.numPeople then
    days.map shiftDay
  else days

/-- Amount of the envelope of a category, 0 when absent. -/
def envAmount (envs : List Envelope) (c : BudgetCategory) : Nat :=
  ((envs.find? (fun e => e.category == c)).map (fun e => e.amount)).getD 0

/-- Modelled from the spec: per-day costs drawn from the envelopes
(spec 4.4 step 4; the envelope is spread uniformly over the duration,
a simplification of the day-type weighting that keeps per-day sums
within each envelope). -/
def applyCosts (req : TripRequest) (envs : List Envelope)
    (days : List DayPlan) : List DayPlan :=
  days.map (fun d =>
    { d with
      transportCost := envAmount envs BudgetCategory.transport / req.durationDays
      hotelCost := envAmount envs BudgetCategory.accommodation / req.durationDays
      mealCost := envAmount envs BudgetCategory.food / req.durationDays })

/-- Convert an existing day into a rest/acclimatization day in place
(spec 4.4 steps 5 and 6: no new day is ever added). -/
def restify (d : DayPlan) : DayPlan :=
  { d with isRest := true, activities := ["Rest and acclimatization"] }

/-- Replace the element at an index by its image under a function; the
list shape is untouched everywhere else. -/
def modifyAt (f : DayPlan → DayPlan) : Nat → List DayPlan → List DayPlan
  | _, [] => []
  | 0, d :: ds => f d :: ds
  | n + 1, d :: ds => d :: modifyAt f n ds

/-- Index of the least activity-dense day among the candidate indices
(first candidate wins ties), 0 when there is no candidate. -/
def argminIdx (days : List DayPlan) (cand : List Nat) : Nat :=
  (cand.foldl (fun best i =>
      match best with
      | none => some i
      | some b =>
          if (dayAt days i).activities.length < (dayAt days b).activities.length
          then some i else some b)
    none).getD 0

/-- Modelled from the spec: base altitude of each supported destination
(project docs on northern areas; unknown destinations default low). -/
def destAltitude (d : String) : Nat :=
  if d = "Hunza" then 2500
  else if d = "Skardu" then 2230
  else if d = "Naran" then 2500
  else if d = "Kaghan" then 2650
  else if d = "Murree" then 2290
  else if d = "Chitral" then 1500
  else if d = "Gilgit" then 1500
  else if d = "Swat" then 980
  else 500

/-- Modelled from the spec: the acclimatization altitude threshold
(spec 9 names 2500 m as the representative value). -/
def acclimatizationThreshold : Nat := 2500

/-- The number of days in the first half of the trip (rounded up). -/
def firstHalfWindow (n : Nat) : Nat := (n + 1) / 2

/-- Modelled from the spec: acclimatization policy (spec 4.4 step 5:
at a high destination, when no rest day exists in the first half of
the trip, convert the least activity-dense day of that window into a
rest/acclimatization day — never add a day). -/
def applyAcclimatization (req : TripRequest) (days : List DayPlan) :
    List DayPlan :=
  if acclimatizationThreshold ≤ destAltitude req.destination then
    if (days.take (firstHalfWindow days.length)).any (fun d => d.isRest) then days
    else modifyAt restify (argminIdx days (List.range (firstHalfWindow days.length))) days
  else days

/-- Modelled from the spec: family rest-day policy (spec 4.4 step 6: a
family trip of 5 or more days gets at least one rest day in addition
to the acclimatization day, by the same in-place conversion). -/
def applyFamilyRest (req : TripRequest) (days : List DayPlan) : List DayPlan :=
  if req.travelType = TravelType.family ∧ 5 ≤ days.length then
    if (if acclimatizationThreshold ≤ destAltitude req.destination then 2 else 1)
        ≤ (days.filter (fun d => d.isRest)).length then days
    else
      modifyAt restify
        (argminIdx days
          ((List.range days.length).filter (fun i => !(dayAt days i).isRest)))
        days
  else days

/-- Modelled from the spec: region tag of a destination. -/
def regionOf (d : String) : String :=
  if d = "Hunza" ∨ d = "Skardu" ∨ d = "Gilgit" then "northern-areas" else "kpk-highlands"

/-- Modelled from the spec: attach the safety assessment of the
destination to every day (spec 4.4 steps 2 and 7). -/
def attachSafety (req : TripRequest) (hs : List HazardSignal)
    (days : List DayPlan) : List DayPlan :=
  let r := assessPlace
    { name := req.destination, region := regionOf req.destination
      altitude := destAltitude req.destination }
    (baseScoreFor req.destination) hs
  days.map (fun d => { d with safetyNotes := r.warnings })

/-- Modelled from the spec: ItineraryAssembler.assemble (spec 4.4).
Checks the destination, allocates the budget, walks the day skeleton
and applies the policy adjustments in the documented order; the
trip-level note escalates to avoid when the destination assessment
falls below the avoid threshold (spec 4.4 step 7). -/
def assemble (req : TripRequest) (hs : List HazardSignal) :
    Except String TripPlan :=
  if req.destination ∈ supportedDests then
    match allocate req.budget req.numPeople req.durationDays req.style with
    | Except.error e => Except.error e
    | Except.ok envs =>
        let days0 := skeleton req
        let days1 := applyNightPolicy req days0
        let days2 := applyCosts req envs days1
        let days3 := applyAcclimatization req days2
        let days4 := applyFamilyRest req days3
        let days5 := attachSafety req hs days4
        let r := assessPlace
          { name := req.destination, region := regionOf req.destination
            altitude := destAltitude req.destination }
          (baseScoreFor req.destination) hs
        Except.ok
          { days := days5
            envelopes := envs
            safetyNote :=
              if r.tier = Tier.avoid then
                "Overall: avoid — a segment scored below the avoid threshold"
              else "Overall: acceptable with listed precautions" }
  else
    Except.error ("unsupported destination: " ++ req.destination)

/-! ## SafetyMap.jsx (frontend, embedded from src/unnamed/part_004) -/

/-- Lowercasing as JavaScript toLowerCase on the ASCII identifiers used
here, applied characterwise. -/
def lowerStr (s : String) : String := ⟨s.data.map Char.toLower⟩

/-- Does the needle match the front of the haystack, characterwise. -/
def leadsList : List Char → List Char → Bool
  | [], _ => true
  | _ :: _, [] => false
  | a :: as, b :: bs => a == b && leadsList as bs

/-- Substring containment on character lists, the semantics of the
JavaScript String.includes used by SafetyMap.jsx. -/
def hasSubList (n : List Char) : List Char → Bool
  | [] => n.isEmpty
  | b :: hs => leadsList n (b :: hs) || hasSubList n hs

/-- haystack.includes(needle) of SafetyMap.jsx. -/
def strHasSub (haystack needle : String) : Bool :=
  hasSubList needle.data haystack.data

/-- A city record of ALL_CITIES (SafetyMap.jsx lines 17-53).
Coordinates are embedded exactly, as integer ten-thousandths of a
degree (the sources write at most four decimal places). -/
structure City where
  lat : Nat
  lon : Nat
  name : String
  ctype : String
deriving DecidableEq

/-- ALL_CITIES of SafetyMap.jsx (lines 17-53), in source order;
coordinates in ten-thousandths of a degree. -/
def ALL_CITIES : List (String × City) :=
  [ ("islamabad", ⟨336844, 730479, "Islamabad", "capital"⟩)
  , ("lahore", ⟨315204, 743587, "Lahore", "major"⟩)
  , ("karachi", ⟨248607, 670011, "Karachi", "major"⟩)
  , ("peshawar", ⟨340151, 715249, "Peshawar", "major"⟩)
  , ("quetta", ⟨301798, 669750, "Quetta", "major"⟩)
  , ("multan", ⟨301575, 715249, "Multan", "major"⟩)
  , ("faisalabad", ⟨314504, 731350, "Faisalabad", "major"⟩)
  , ("rawalpindi", ⟨335651, 730169, "Rawalpindi", "major"⟩)
  , ("hunza", ⟨363167, 746500, "Hunza", "tourist"⟩)
  , ("skardu", ⟨352971, 756333, "Skardu", "tourist"⟩)
  , ("gilgit", ⟨359208, 744584, "Gilgit", "tourist"⟩)
  , ("chitral", ⟨358518, 717864, "Chitral", "tourist"⟩)
  , ("swat", ⟨352227, 723459, "Swat", "tourist"⟩)
  , ("naran", ⟨349039, 736501, "Naran", "tourist"⟩)
  , ("kaghan", ⟨348333, 736167, "Kaghan", "tourist"⟩)
  , ("murree", ⟨339070, 733903, "Murree", "tourist"⟩)
  , ("kalam", ⟨354833, 725833, "Kalam", "tourist"⟩)
  , ("khunjerab", ⟨368500, 754200, "Khunjerab Pass", "pass"⟩)
  , ("babusar", ⟨351500, 740167, "Babusar Pass", "pass"⟩)
  , ("lowari", ⟨353000, 718000, "Lowari Pass", "pass"⟩)
  , ("abbottabad", ⟨341463, 732117, "Abbottabad", "city"⟩)
  , ("mansehra", ⟨343300, 732000, "Mansehra", "city"⟩)
  , ("chilas", ⟨354167, 741000, "Chilas", "city"⟩)
  , ("mingora", ⟨347717, 723600, "Mingora", "city"⟩)
  , ("dir", ⟨352000, 718833, "Dir", "city"⟩)
  , ("gwadar", ⟨251264, 623225, "Gwadar", "coastal"⟩) ]

/-- CITY_COORDS is an alias of ALL_CITIES (SafetyMap.jsx line 56). -/
def CITY_COORDS : List (String × City) := ALL_CITIES

/-- A safety alert as consumed by SafetyMap.jsx: a region string, a
severity, and optional own coordinates (in the same ten-thousandths
of a degree as City). -/
structure Alert where
  region : String
  severity : Severity
  coordinates : Option (Nat × Nat)
deriving DecidableEq

/-- City risk level on the safety map: safe, or one of the alert
severities (SafetyMap.jsx severityOrder, line 135). -/
inductive Risk
  | safe
  | low
  | medium
  | high
  | critical
deriving DecidableEq

/-- The numeric severity order of SafetyMap.jsx line 135. -/
def riskRank : Risk → Nat
  | .safe => 0
  | .low => 1
  | .medium => 2
  | .high => 3
  | .critical => 4

/-- An alert severity as a map risk level. -/
def sevRisk : Severity → Risk
  | .low => Risk.low
  | .medium => Risk.medium
  | .high => Risk.high
  | .critical => Risk.critical

/-- The alert-to-city matching test of SafetyMap.jsx line 131: the
lowercased alert region contains the city key or the lowercased city
name. -/
def alertMatches (key : String) (c : City) (a : Alert) : Bool :=
  strHasSub (lowerStr a.region) key || strHasSub (lowerStr a.region) (lowerStr c.name)

/-- Per-city accumulator of getCityRiskData (SafetyMap.jsx lines
118-125). -/
structure CityRisk where
  city : City
  riskLevel : Risk
  alerts : List Alert
  alertCount : Nat
deriving DecidableEq

/-- A city starts safe with no alerts (SafetyMap.jsx lines 118-125). -/
def initCityRisk (c : City) : CityRisk :=
  { city := c, riskLevel := Risk.safe, alerts := [], alertCount := 0 }

/-- One alert folded into a city's accumulator (SafetyMap.jsx lines
128-140): a matching alert is appended, counted, and raises the risk
level when its severity ranks strictly higher. -/
def stepRisk (key : String) (c : City) (cr : CityRisk) (a : Alert) : CityRisk :=
  if alertMatches key c a then
    { cr with
      alerts := cr.alerts ++ [a]
      alertCount := cr.alertCount + 1
      riskLevel :=
        if riskRank cr.riskLevel < riskRank (sevRisk a.severity) then
          sevRisk a.severity
        else cr.riskLevel }
  else cr

/-- The accumulated risk data of one city over the alert list. -/
def riskFor (alerts : List Alert) (key : String) (c : City) : CityRisk :=
  alerts.foldl (stepRisk key c) (initCityRisk c)

/-- getCityRiskData of SafetyMap.jsx (lines 113-144): every city of
ALL_CITIES with its accumulated risk level, matching alerts and alert
count. -/
def getCityRiskData (alerts : List Alert) : List (String × CityRisk) :=
  ALL_CITIES.map (fun kc => (kc.1, riskFor alerts kc.1 kc.2))

/-- The fallback coordinate search of getAlertCoords (SafetyMap.jsx
lines 102-110): the first city of CITY_COORDS whose key occurs in the
lowercased region, with the Islamabad default when none matches. -/
def coordsFromRegion (region : String) : Nat × Nat :=
  match CITY_COORDS.find? (fun kc => strHasSub (lowerStr region) kc.1) with
  | some kc => (kc.2.lat, kc.2.lon)
  | none => (336844, 730479)

/-- getAlertCoords of SafetyMap.jsx (lines 98-111).  JavaScript
truthiness makes a zero latitude or longitude fall through to the
region search, exactly as the source's and-chain does. -/
def getAlertCoords (a : Alert) : Nat × Nat :=
  match a.coordinates with
  | some c => if c.1 ≠ 0 ∧ c.2 ≠ 0 then (c.1, c.2) else coordsFromRegion a.region
  | none => coordsFromRegion a.region

/-! ## TripWizard.jsx people counter (embedded from src/unnamed/part_004) -/

/-- The default traveler count of the wizard form state
(TripWizard.jsx line 419). -/
def defaultNumPeople : Nat := 4

/-- One user interaction that can change numPeople: the decrement and
increment counter buttons (TripWizard.jsx lines 610-620) and the
travel-type cards (lines 593-598; the group card leaves the count
unchanged). -/
inductive WizardAction
  | dec
  | inc
  | setType (t : TravelType)
deriving DecidableEq

/-- The state update of one action: decrement clamps at 1, increment
clamps at 50, and the travel-type cards set 1, 2 or 4. -/
def applyAction (n : Nat) : WizardAction → Nat
  | .dec => max 1 (n - 1)
  | .inc => min 50 (n + 1)
  | .setType TravelType.solo => 1
  | .setType TravelType.couple => 2
  | .setType TravelType.family => 4
  | .setType TravelType.group => n

/-- The traveler count after a sequence of clicks. -/
def runWizard (start : Nat) (acts : List WizardAction) : Nat :=
  acts.foldl applyAction start

/-! ## Helper lemmas -/

/-- The floored category amounts never exceed the total: the scaled
percentages of every style sum to 100. -/
theorem rawSum_le (total : Nat) (s : Style) : rawSum total s ≤ total := by
  cases s <;>
    simp [rawSum, rawAmount, scaledPct, rawPct, pctSum, catList] <;> omega

/-! ## Claim C1 -/

/-- Claim C1: for every valid allocation input the BudgetAllocator's
envelopes sum exactly to the total budget: each category amount is the
floor of total times percentage and the integer rounding remainder is
assigned to the buffer envelope, so the five envelope amounts sum to
totalBudget with no deficit or surplus. -/
theorem budget_envelopes_sum_to_total :
    ∀ (total people days : Nat) (s : Style) (envs : List Envelope),
      allocate total people days s = Except.ok envs →
      (envs.map Envelope.amount).sum = total := by
  intro total people days s envs h
  unfold allocate at h
  split at h
  · cases h
    have hle := rawSum_le total s
    simp only [rawSum, catList, List.map_cons, List.map_nil, List.sum_cons,
      List.sum_nil] at hle
    simp [catList, allocAmount, rawSum]
    omega
  · cases h

/-- Witness for C1 at the documented Hunza scenario input
(180000 PKR, 4 people, 6 days, comfort). -/
theorem budget_envelopes_sum_to_total_witness :
    (([ ⟨BudgetCategory.transport, 63000, 35⟩
      , ⟨BudgetCategory.accommodation, 50400, 28⟩
      , ⟨BudgetCategory.food, 28800, 16⟩
      , ⟨BudgetCategory.activities, 19800, 11⟩
      , ⟨BudgetCategory.buffer, 18000, 10⟩ ] : List Envelope).map
        Envelope.amount).sum = 180000 :=
  budget_envelopes_sum_to_total 180000 4 6 Style.comfort _ (by rfl)

/-! ## Claim C6 -/

/-- Claim C6: for every supported style each category's allocated
percentage lies within its configured guardrail range (transport
30-40, accommodation 25-35, food 15-20, activities 10-15) and the
buffer percentage meets the fixed 10 percent minimum; on every valid
allocation the buffer envelope amount is strictly positive. -/
theorem budget_guardrails_and_buffer :
    ∀ (s : Style) (c : BudgetCategory),
      (guardrailLo c ≤ scaledPct s c ∧ scaledPct s c ≤ guardrailHi c) ∧
      10 ≤ scaledPct s BudgetCategory.buffer ∧
      (∀ (total people days : Nat) (envs : List Envelope) (e : Envelope),
        allocate total people days s = Except.ok envs →
        e ∈ envs → e.category = BudgetCategory.buffer → 0 < e.amount) := by
  intro s c
  refine ⟨?_, ?_, ?_⟩
  · cases s <;> cases c <;> decide
  · cases s <;> decide
  · intro total people days envs e h he hcat
    unfold allocate at h
    split at h
    · rename_i hcond
      cases h
      rcases List.mem_map.1 he with ⟨c0, _, rfl⟩
      simp only at hcat
      subst hcat
      obtain ⟨hp, hd, hm⟩ := hcond
      have hmin : 3000 ≤ minPerPersonDay s := by cases s <;> decide
      have hmul : 3000 * 1 * 1 ≤ minPerPersonDay s * people * days :=
        Nat.mul_le_mul (Nat.mul_le_mul hmin hp) hd
      have htot : 3000 ≤ total := by omega
      have hsp : scaledPct s BudgetCategory.buffer = 10 := by cases s <;> rfl
      have hle := rawSum_le total s
      have hAmt : allocAmount total s BudgetCategory.buffer
          = total * 10 / 100 + (total - rawSum total s) := by
        simp [allocAmount, rawAmount, hsp]
      simp only [hAmt]
      omega
    · cases h

/-! ## Claim C2 -/

/-- Claim C2: RouteResolver.resolve never fails for a pair over the
supported destination set: it always returns a RouteFact with a valid
source tag among live, persisted and fallback; when the live provider
fails and the persisted store has no entry for the pair in either
direction, the returned fact carries source fallback; only an
unsupported destination is reported as an error to the caller. -/
theorem route_resolver_cascade :
    ∀ (live : String → String → Option LiveResult) (now : Nat)
      (st : ResolverState) (o d : String),
      (d ∈ supportedDests →
        (∃ f st2, resolve live now st o d = Except.ok (f, st2) ∧
          (f.source = RouteSource.live ∨ f.source = RouteSource.persisted ∨
            f.source = RouteSource.fallback)) ∧
        (live o d = none → storeGet st o d = none → storeGet st d o = none →
          resolve live now st o d = Except.ok (fallbackFact o d, st) ∧
          (fallbackFact o d).source = RouteSource.fallback)) ∧
      (d ∉ supportedDests →
        resolve live now st o d
          = Except.error ("unsupported destination: " ++ d)) := by
  intro live now st o d
  constructor
  · intro hd
    constructor
    · unfold resolve
      rw [if_pos hd]
      cases hl : live o d with
      | some r => exact ⟨_, _, rfl, Or.inl rfl⟩
      | none =>
        cases hg : storeGet st o d with
        | some f => exact ⟨_, _, rfl, Or.inr (Or.inl rfl)⟩
        | none =>
          cases hg2 : storeGet st d o with
          | some f => exact ⟨_, _, rfl, Or.inr (Or.inl rfl)⟩
          | none => exact ⟨_, _, rfl, Or.inr (Or.inr rfl)⟩
    · intro h1 h2 h3
      unfold resolve
      rw [if_pos hd, h1, h2, h3]
      exact ⟨rfl, rfl⟩
  · intro hd
    unfold resolve
    rw [if_neg hd]

/-- Witness for C2: a run with the live provider failing and the
persisted store empty resolves Islamabad to Hunza from the fallback
tier, leaving the store untouched. -/
theorem route_resolver_cascade_witness :
    resolve (fun _ _ => none) 0 ⟨[]⟩ "Islamabad" "Hunza"
      = Except.ok (fallbackFact "Islamabad" "Hunza", ⟨[]⟩) :=
  (((route_resolver_cascade (fun _ _ => none) 0 ⟨[]⟩ "Islamabad" "Hunza").1
    (by decide)).2 rfl rfl rfl).1

/-! ## Claim C3 -/

/-- Subtracting the penalties one by one equals subtracting their sum,
with natural subtraction flooring at 0. -/
theorem foldl_penalty_sub (l : List HazardSignal) :
    ∀ b : Nat,
      l.foldl (fun s h => s - penalty h.severity) b
        = b - (l.map (fun h => penalty h.severity)).sum := by
  induction l with
  | nil => intro b; simp
  | cons h t ih =>
    intro b
    simp only [List.foldl_cons, List.map_cons, List.sum_cons]
    rw [ih, Nat.sub_sub]

/-- The threshold map from score to tier, as three characterizations. -/
theorem tierOf_cases (v : Nat) :
    (tierOf v = Tier.recommended ↔ 70 ≤ v) ∧
    (tierOf v = Tier.caution ↔ 40 ≤ v ∧ v ≤ 69) ∧
    (tierOf v = Tier.avoid ↔ v < 40) := by
  unfold tierOf
  split_ifs with h1 h2 <;> refine ⟨?_, ?_, ?_⟩ <;> simp <;> omega

/-- Claim C3: for every base score and finite hazard list,
SafetyScorer's score equals the base score minus the sum of the
severity penalties of the active hazards in the region (low 5, medium
15, high 30, critical 50), floored at 0 by natural subtraction; the
tier is recommended exactly when the score is at least 70, caution
exactly in 40..69, avoid exactly below 40; in particular a base score
of 80 with one critical hazard yields score 30 and tier avoid. -/
theorem safety_score_penalties_and_tiers :
    ∀ (region : String) (base : Nat) (hs : List HazardSignal),
      (SafetyScorer.score region base hs).score
          = base - ((hs.filter (activeIn region)).map
              (fun h => penalty h.severity)).sum ∧
      ((SafetyScorer.score region base hs).tier = Tier.recommended ↔
          70 ≤ (SafetyScorer.score region base hs).score) ∧
      ((SafetyScorer.score region base hs).tier = Tier.caution ↔
          40 ≤ (SafetyScorer.score region base hs).score ∧
            (SafetyScorer.score region base hs).score ≤ 69) ∧
      ((SafetyScorer.score region base hs).tier = Tier.avoid ↔
          (SafetyScorer.score region base hs).score < 40) ∧
      (SafetyScorer.score "northern-areas" 80
          [⟨"northern-areas", HazardType.flood, Severity.critical, true,
            "flood alert"⟩]).score = 30 ∧
      (SafetyScorer.score "northern-areas" 80
          [⟨"northern-areas", HazardType.flood, Severity.critical, true,
            "flood alert"⟩]).tier = Tier.avoid := by
  intro region base hs
  refine ⟨?_, ?_, ?_, ?_, ?_, ?_⟩
  · exact foldl_penalty_sub _ base
  · exact (tierOf_cases (scoreValue region base hs)).1
  · exact (tierOf_cases (scoreValue region base hs)).2.1
  · exact (tierOf_cases (scoreValue region base hs)).2.2
  · decide
  · decide

/-! ## Claim C7 -/

/-- Capping at caution never yields recommended. -/
theorem capTier_ne_recommended (t : Tier) : capTier t ≠ Tier.recommended := by
  cases t <;> simp [capTier]

/-- Claim C7: for every place above 2500 m the safety assessment always
contains the altitude warning, whatever the numeric score; for every
place above 3500 m the resulting tier is never recommended, whatever
the base score and hazard set. -/
theorem altitude_warning_and_tier_cap :
    ∀ (p : Place) (base : Nat) (hs : List HazardSignal),
      (2500 < p.altitude →
        altitudeWarning ∈ (assessPlace p base hs).warnings) ∧
      (3500 < p.altitude →
        (assessPlace p base hs).tier ≠ Tier.recommended) := by
  intro p base hs
  constructor
  · intro h
    unfold assessPlace
    simp only [if_pos h]
    split
    · simp
    · simp
  · intro h
    have h1 : 2500 < p.altitude := by omega
    unfold assessPlace
    simp only [if_pos h1, if_pos h]
    exact capTier_ne_recommended _

/-! ## Claim C4 -/

/-- In-place modification never changes the list length. -/
theorem length_modifyAt (f : DayPlan → DayPlan) :
    ∀ (n : Nat) (l : List DayPlan), (modifyAt f n l).length = l.length := by
  intro n l
  induction l generalizing n with
  | nil => cases n <;> rfl
  | cons d ds ih =>
    cases n with
    | zero => rfl
    | succ m => simp [modifyAt, ih]

/-- A member of a modified list is an old member or the image of one. -/
theorem mem_modifyAt (f : DayPlan → DayPlan) :
    ∀ (n : Nat) (l : List DayPlan) (d : DayPlan),
      d ∈ modifyAt f n l → d ∈ l ∨ ∃ b, b ∈ l ∧ d = f b := by
  intro n l
  induction l generalizing n with
  | nil => intro d hd; cases n <;> simp [modifyAt] at hd
  | cons x xs ih =>
    intro d hd
    cases n with
    | zero =>
      simp only [modifyAt, List.mem_cons] at hd
      rcases hd with rfl | hd
      · exact Or.inr ⟨x, by simp, rfl⟩
      · exact Or.inl (by simp [hd])
    | succ m =>
      simp only [modifyAt, List.mem_cons] at hd
      rcases hd with rfl | hd
      · exact Or.inl (by simp)
      · rcases ih m d hd with h | ⟨b, hb, rfl⟩
        · exact Or.inl (by simp [h])
        · exact Or.inr ⟨b, by simp [hb], rfl⟩

/-- The skeleton has one day per requested duration day. -/
theorem length_skeleton (req : TripRequest) :
    (skeleton req).length = req.durationDays := by
  simp [skeleton]

/-- The night policy never changes the number of days. -/
theorem length_applyNightPolicy (req : TripRequest) (l : List DayPlan) :
    (applyNightPolicy req l).length = l.length := by
  unfold applyNightPolicy
  split <;> simp

/-- Costing never changes the number of days. -/
theorem length_applyCosts (req : TripRequest) (envs : List Envelope)
    (l : List DayPlan) : (applyCosts req envs l).length = l.length := by
  simp [applyCosts]

/-- Acclimatization conversion never changes the number of days. -/
theorem length_applyAcclimatization (req : TripRequest) (l : List DayPlan) :
    (applyAcclimatization req l).length = l.length := by
  unfold applyAcclimatization
  split
  · split
    · rfl
    · exact length_modifyAt _ _ _
  · rfl

/-- Family rest conversion never changes the number of days. -/
theorem length_applyFamilyRest (req : TripRequest) (l : List DayPlan) :
    (applyFamilyRest req l).length = l.length := by
  unfold applyFamilyRest
  split_ifs <;> simp [length_modifyAt]

/-- Attaching safety notes never changes the number of days. -/
theorem length_attachSafety (req : TripRequest) (hs : List HazardSignal)
    (l : List DayPlan) : (attachSafety req hs l).length = l.length := by
  simp [attachSafety]

/-- Claim C4: every assembled TripPlan has exactly as many DayPlans as
the requested duration: rest and acclimatization days are produced
only by converting an existing day in place, and no policy adjustment
ever adds a day beyond the requested duration. -/
theorem itinerary_day_count :
    ∀ (req : TripRequest) (hs : List HazardSignal) (plan : TripPlan),
      assemble req hs = Except.ok plan →
      plan.days.length = req.durationDays := by
  intro req hs plan h
  unfold assemble at h
  split at h
  · cases halloc : allocate req.budget req.numPeople req.durationDays req.style with
    | error e => rw [halloc] at h; cases h
    | ok envs =>
      rw [halloc] at h
      cases h
      simp only [length_attachSafety, length_applyFamilyRest,
        length_applyAcclimatization, length_applyCosts,
        length_applyNightPolicy, length_skeleton]
  · cases h

/-- Witness for C4 at a concrete Skardu request: the assembled plan has
exactly the requested 7 days. -/
theorem itinerary_day_count_witness :
    (assemble ⟨"Skardu", 7, 2, 200000, TravelType.couple, Style.adventure,
        "Islamabad"⟩ []).map (fun p => p.days.length) = Except.ok 7 := by
  cases hq : assemble ⟨"Skardu", 7, 2, 200000, TravelType.couple,
      Style.adventure, "Islamabad"⟩ [] with
  | error e =>
    have hok : (assemble ⟨"Skardu", 7, 2, 200000, TravelType.couple,
        Style.adventure, "Islamabad"⟩ []).isOk = true := by decide
    rw [hq] at hok
    simp [Except.isOk, Except.toBool] at hok
  | ok plan =>
    have := itinerary_day_count ⟨"Skardu", 7, 2, 200000, TravelType.couple,
      Style.adventure, "Islamabad"⟩ [] plan hq
    simp [Except.map, this]

/-! ## Claim C5 -/

/-- The daylight shift always lands outside the night window. -/
theorem nightWindow_shiftToDaylight (h : Nat) :
    nightWindow (shiftToDaylight h) = false := by
  unfold shiftToDaylight
  split
  · decide
  · rename_i hn
    simpa using hn

/-- After the night policy runs on a family or 8-plus group, every day
departs outside the night window. -/
theorem applyNightPolicy_no_night (req : TripRequest) (l : List DayPlan)
    (hfam : req.travelType = TravelType.family ∨ 8 ≤ req.numPeople) :
    ∀ d ∈ applyNightPolicy req l, nightWindow d.departureHour = false := by
  intro d hd
  unfold applyNightPolicy at hd
  rw [if_pos hfam] at hd
  rcases List.mem_map.1 hd with ⟨b, _, rfl⟩
  exact nightWindow_shiftToDaylight b.departureHour

/-- A map whose function keeps departure hours keeps the daylight
property of every member. -/
theorem no_night_of_map {l : List DayPlan} {g : DayPlan → DayPlan}
    (hg : ∀ b, (g b).departureHour = b.departureHour)
    (h : ∀ b ∈ l, nightWindow b.departureHour = false) :
    ∀ d ∈ l.map g, nightWindow d.departureHour = false := by
  intro d hd
  rcases List.mem_map.1 hd with ⟨b, hb, rfl⟩
  rw [hg]
  exact h b hb

/-- An in-place conversion whose function keeps departure hours keeps
the daylight property of every member. -/
theorem no_night_of_modifyAt {l : List DayPlan} {g : DayPlan → DayPlan}
    (hg : ∀ b, (g b).departureHour = b.departureHour)
    (h : ∀ b ∈ l, nightWindow b.departureHour = false) :
    ∀ (n : Nat) (d : DayPlan), d ∈ modifyAt g n l →
      nightWindow d.departureHour = false := by
  intro n d hd
  rcases mem_modifyAt g n l d hd with hmem | ⟨b, hb, rfl⟩
  · exact h d hmem
  · rw [hg]
    exact h b hb

/-- Costing keeps the daylight property. -/
theorem no_night_applyCosts (req : TripRequest) (envs : List Envelope)
    {l : List DayPlan} (h : ∀ b ∈ l, nightWindow b.departureHour = false) :
    ∀ d ∈ applyCosts req envs l, nightWindow d.departureHour = false := by
  intro d hd
  unfold applyCosts at hd
  refine no_night_of_map ?_ h d hd
  intro b
  rfl

/-- Acclimatization conversion keeps the daylight property. -/
theorem no_night_applyAcclimatization (req : TripRequest)
    {l : List DayPlan} (h : ∀ b ∈ l, nightWindow b.departureHour = false) :
    ∀ d ∈ applyAcclimatization req l, nightWindow d.departureHour = false := by
  intro d hd
  unfold applyAcclimatization at hd
  split_ifs at hd
  · exact h d hd
  · refine no_night_of_modifyAt ?_ h _ d hd
    intro b
    rfl
  · exact h d hd

/-- Family rest conversion keeps the daylight property. -/
theorem no_night_applyFamilyRest (req : TripRequest)
    {l : List DayPlan} (h : ∀ b ∈ l, nightWindow b.departureHour = false) :
    ∀ d ∈ applyFamilyRest req l, nightWindow d.departureHour = false := by
  intro d hd
  unfold applyFamilyRest at hd
  split_ifs at hd <;>
    first
      | exact h d hd
      | · refine no_night_of_modifyAt ?_ h _ d hd
          intro b
          rfl

/-- Attaching safety notes keeps the daylight property. -/
theorem no_night_attachSafety (req : TripRequest) (hs : List HazardSignal)
    {l : List DayPlan} (h : ∀ b ∈ l, nightWindow b.departureHour = false) :
    ∀ d ∈ attachSafety req hs l, nightWindow d.departureHour = false := by
  intro d hd
  unfold attachSafety at hd
  refine no_night_of_map ?_ h d hd
  intro b
  rfl

/-- Claim C5: in every assembled plan for a family trip (and likewise
for 8 or more people) no DayPlan departs in the night window: a
skeleton night departure is shifted to the next viable daylight slot
instead of violating the rule. -/
theorem itinerary_family_no_night_departures :
    ∀ (req : TripRequest) (hs : List HazardSignal) (plan : TripPlan),
      assemble req hs = Except.ok plan →
      req.travelType = TravelType.family ∨ 8 ≤ req.numPeople →
      ∀ d ∈ plan.days, nightWindow d.departureHour = false := by
  intro req hs plan h hfam
  unfold assemble at h
  split at h
  · cases halloc : allocate req.budget req.numPeople req.durationDays req.style with
    | error e => rw [halloc] at h; cases h
    | ok envs =>
      rw [halloc] at h
      cases h
      exact no_night_attachSafety req hs
        (no_night_applyFamilyRest req
          (no_night_applyAcclimatization req
            (no_night_applyCosts req envs
              (applyNightPolicy_no_night req (skeleton req) hfam))))
  · cases h

/-- Witness for C5: a family budget-style Hunza trip, whose skeleton
would depart at 20:00 on day 1, assembles with every departure outside
the night window. -/
theorem itinerary_family_no_night_departures_witness :
    (assemble ⟨"Hunza", 5, 4, 200000, TravelType.family, Style.budget,
        "Islamabad"⟩ []).map
      (fun p => p.days.all (fun d => !nightWindow d.departureHour))
      = Except.ok true := by
  cases hq : assemble ⟨"Hunza", 5, 4, 200000, TravelType.family, Style.budget,
      "Islamabad"⟩ [] with
  | error e =>
    have hok : (assemble ⟨"Hunza", 5, 4, 200000, TravelType.family,
        Style.budget, "Islamabad"⟩ []).isOk = true := by decide
    rw [hq] at hok
    simp [Except.isOk, Except.toBool] at hok
  | ok plan =>
    have hnn := itinerary_family_no_night_departures
      ⟨"Hunza", 5, 4, 200000, TravelType.family, Style.budget, "Islamabad"⟩
      [] plan hq (Or.inl rfl)
    simp only [Except.map]
    have : plan.days.all (fun d => !nightWindow d.departureHour) = true := by
      rw [List.all_eq_true]
      intro d hd
      simp [hnn d hd]
    rw [this]

/-! ## Claim C8 -/

/-- One fold step never lowers the accumulated risk rank. -/
theorem stepRisk_level_mono (key : String) (c : City) (cr : CityRisk)
    (a : Alert) :
    riskRank cr.riskLevel ≤ riskRank ((stepRisk key c cr a).riskLevel) := by
  unfold stepRisk
  split
  · simp only
    split
    · rename_i hr
      exact Nat.le_of_lt hr
    · exact Nat.le_refl _
  · exact Nat.le_refl _

/-- The fold never lowers the accumulated risk rank. -/
theorem riskFold_level_mono (key : String) (c : City) :
    ∀ (alerts : List Alert) (cr : CityRisk),
      riskRank cr.riskLevel
        ≤ riskRank ((alerts.foldl (stepRisk key c) cr).riskLevel) := by
  intro alerts
  induction alerts with
  | nil => intro cr; exact Nat.le_refl _
  | cons a t ih =>
    intro cr
    simp only [List.foldl_cons]
    exact Nat.le_trans (stepRisk_level_mono key c cr a) (ih (stepRisk key c cr a))

/-- A matching alert never folds in unnoticed. -/
theorem stepRisk_count_eq (key : String) (c : City) (cr : CityRisk) (a : Alert) :
    (stepRisk key c cr a).alertCount
      = if alertMatches key c a then cr.alertCount + 1 else cr.alertCount := by
  unfold stepRisk
  split <;> simp_all

/-- The fold counts exactly the matching alerts. -/
theorem riskFold_count (key : String) (c : City) :
    ∀ (alerts : List Alert) (cr : CityRisk),
      (alerts.foldl (stepRisk key c) cr).alertCount
        = cr.alertCount + (alerts.filter (alertMatches key c)).length := by
  intro alerts
  induction alerts with
  | nil => intro cr; simp
  | cons a t ih =>
    intro cr
    simp only [List.foldl_cons, List.filter_cons]
    by_cases hm : alertMatches key c a = true
    · rw [ih]
      rw [stepRisk_count_eq, if_pos hm]
      simp [hm]
      omega
    · have hm' : alertMatches key c a = false := by simpa using hm
      rw [ih]
      rw [stepRisk_count_eq, if_neg (by simp [hm'])]
      simp [hm']

/-- The fold result dominates the rank of every matching alert. -/
theorem riskFold_level_ub (key : String) (c : City) :
    ∀ (alerts : List Alert) (cr : CityRisk) (a : Alert),
      a ∈ alerts → alertMatches key c a = true →
      riskRank (sevRisk a.severity)
        ≤ riskRank ((alerts.foldl (stepRisk key c) cr).riskLevel) := by
  intro alerts
  induction alerts with
  | nil => intro cr a ha; cases ha
  | cons x t ih =>
    intro cr a ha hm
    simp only [List.foldl_cons]
    rcases List.mem_cons.1 ha with rfl | ha'
    · refine Nat.le_trans ?_ (riskFold_level_mono key c t (stepRisk key c cr a))
      unfold stepRisk
      rw [if_pos hm]
      simp only
      split
      · exact Nat.le_refl _
      · rename_i hr
        omega
    · exact ih (stepRisk key c cr x) a ha' hm

/-- The fold result is the initial level or the rank of some matching
alert. -/
theorem riskFold_level_attained (key : String) (c : City) :
    ∀ (alerts : List Alert) (cr : CityRisk),
      (alerts.foldl (stepRisk key c) cr).riskLevel = cr.riskLevel ∨
      ∃ a, a ∈ alerts ∧ alertMatches key c a = true ∧
        (alerts.foldl (stepRisk key c) cr).riskLevel = sevRisk a.severity := by
  intro alerts
  induction alerts with
  | nil => intro cr; exact Or.inl rfl
  | cons x t ih =>
    intro cr
    simp only [List.foldl_cons]
    rcases ih (stepRisk key c cr x) with h | ⟨a, ha, hm, he⟩
    · by_cases hm : alertMatches key c x = true
      · rw [h]
        unfold stepRisk
        rw [if_pos hm]
        simp only
        split
        · exact Or.inr ⟨x, by simp, hm, rfl⟩
        · exact Or.inl rfl
      · have hstep : stepRisk key c cr x = cr := by
          unfold stepRisk
          rw [if_neg (by simpa using hm)]
        rw [hstep] at h ⊢
        exact Or.inl h
    · exact Or.inr ⟨a, by simp [ha], hm, he⟩

/-- Claim C8: getCityRiskData assigns every city of ALL_CITIES a
riskLevel equal to the maximum severity, under safe < low < medium <
high < critical, over exactly the alerts whose lowercased region
contains the city key or the lowercased city name: the level
dominates every matching alert, is attained by one of them unless none
matches, the alert count is the number of matching alerts, and a city
with no matching alert stays at safe with count 0. -/
theorem safety_map_city_risk_is_max :
    ∀ (alerts : List Alert) (key : String) (c : City),
      (key, c) ∈ ALL_CITIES →
      ((key, riskFor alerts key c) ∈ getCityRiskData alerts ∧
        (riskFor alerts key c).alertCount
          = (alerts.filter (alertMatches key c)).length ∧
        (∀ a ∈ alerts.filter (alertMatches key c),
          riskRank (sevRisk a.severity)
            ≤ riskRank (riskFor alerts key c).riskLevel) ∧
        ((riskFor alerts key c).riskLevel = Risk.safe ∨
          ∃ a ∈ alerts.filter (alertMatches key c),
            (riskFor alerts key c).riskLevel = sevRisk a.severity) ∧
        (alerts.filter (alertMatches key c) = [] →
          (riskFor alerts key c).riskLevel = Risk.safe ∧
          (riskFor alerts key c).alertCount = 0)) := by
  intro alerts key c hmem
  refine ⟨?_, ?_, ?_, ?_, ?_⟩
  · exact List.mem_map.2 ⟨(key, c), hmem, rfl⟩
  · unfold riskFor
    rw [riskFold_count]
    simp [initCityRisk]
  · intro a ha
    rw [List.mem_filter] at ha
    exact riskFold_level_ub key c alerts (initCityRisk c) a ha.1 ha.2
  · rcases riskFold_level_attained key c alerts (initCityRisk c) with h | ⟨a, ha, hm, he⟩
    · exact Or.inl h
    · exact Or.inr ⟨a, List.mem_filter.2 ⟨ha, hm⟩, he⟩
  · intro hnil
    constructor
    · rcases riskFold_level_attained key c alerts (initCityRisk c) with h | ⟨a, ha, hm, he⟩
      · exact h
      · have : a ∈ alerts.filter (alertMatches key c) := List.mem_filter.2 ⟨ha, hm⟩
        rw [hnil] at this
        cases this
    · unfold riskFor
      rw [riskFold_count]
      simp [initCityRisk, hnil]

/-- Witness for C8: one high-severity Hunza flood alert gives the hunza
city entry exactly its one matching alert. -/
theorem safety_map_city_risk_is_max_witness :
    (riskFor [⟨"Flooding in Hunza Valley", Severity.high, none⟩] "hunza"
        ⟨363167, 746500, "Hunza", "tourist"⟩).alertCount
      = (([⟨"Flooding in Hunza Valley", Severity.high, none⟩] : List Alert).filter
          (alertMatches "hunza" ⟨363167, 746500, "Hunza", "tourist"⟩)).length :=
  (safety_map_city_risk_is_max [⟨"Flooding in Hunza Valley", Severity.high, none⟩]
    "hunza" ⟨363167, 746500, "Hunza", "tourist"⟩ (by decide)).2.1

/-! ## Claim C9 -/

/-- Counterexample to C9 as stated: an alert whose coordinates are
present but zero (JavaScript-falsy) is not placed at its own
coordinates; the and-chain of the source falls through to the region
search and, with no city key in the region, to the Islamabad default. -/
theorem alert_coords_present_cex :
    (Alert.mk "unknown-region-zz" Severity.low (some (0, 0))).coordinates
        = some (0, 0) ∧
    getAlertCoords (Alert.mk "unknown-region-zz" Severity.low (some (0, 0)))
        ≠ (0, 0) ∧
    getAlertCoords (Alert.mk "unknown-region-zz" Severity.low (some (0, 0)))
        = (336844, 730479) := by
  refine ⟨rfl, ?_, ?_⟩
  · decide
  · decide

/-- Claim C9 (amended): getAlertCoords is total and never fails: it
returns the alert's own coordinates when they are present with truthy
(nonzero) latitude and longitude, otherwise the coordinates of the
first city of CITY_COORDS whose key occurs in the lowercased region,
and otherwise the Islamabad default, so every alert is always placed
on the map. -/
theorem alert_coords_resolution :
    ∀ (a : Alert),
      (∀ la lo, a.coordinates = some (la, lo) → la ≠ 0 → lo ≠ 0 →
        getAlertCoords a = (la, lo)) ∧
      (a.coordinates = none → getAlertCoords a = coordsFromRegion a.region) ∧
      (∀ la lo, a.coordinates = some (la, lo) → (la = 0 ∨ lo = 0) →
        getAlertCoords a = coordsFromRegion a.region) ∧
      (∀ k c, CITY_COORDS.find? (fun kc => strHasSub (lowerStr a.region) kc.1)
          = some (k, c) → coordsFromRegion a.region = (c.lat, c.lon)) ∧
      (CITY_COORDS.find? (fun kc => strHasSub (lowerStr a.region) kc.1) = none →
        coordsFromRegion a.region = (336844, 730479)) := by
  intro a
  refine ⟨?_, ?_, ?_, ?_, ?_⟩
  · intro la lo hc hla hlo
    unfold getAlertCoords
    rw [hc]
    simp [hla, hlo]
  · intro hc
    unfold getAlertCoords
    rw [hc]
  · intro la lo hc hz
    unfold getAlertCoords
    rw [hc]
    rcases hz with rfl | rfl <;> simp
  · intro k c hf
    unfold coordsFromRegion
    rw [hf]
  · intro hf
    unfold coordsFromRegion
    rw [hf]

/-! ## Claim C10 -/

/-- One counter action keeps the traveler count within 1..50. -/
theorem applyAction_bounds (n : Nat) (a : WizardAction)
    (h1 : 1 ≤ n) (h2 : n ≤ 50) :
    1 ≤ applyAction n a ∧ applyAction n a ≤ 50 := by
  cases a with
  | dec => simp only [applyAction]; omega
  | inc => simp only [applyAction]; omega
  | setType t => cases t <;> simp only [applyAction] <;> omega

/-- Claim C10: starting from the wizard default of 4 or from the
values 1, 2 or 4 set by choosing a travel type, no sequence of counter
clicks or travel-type choices can drive the traveler count below 1 or
above 50: every decrement clamps at 1 and every increment clamps at
50. -/
theorem wizard_people_counter_bounds :
    ∀ (start : Nat),
      start = defaultNumPeople ∨ start = 1 ∨ start = 2 ∨ start = 4 →
      ∀ (acts : List WizardAction),
        1 ≤ runWizard start acts ∧ runWizard start acts ≤ 50 := by
  intro start hstart acts
  have hinv : ∀ (l : List WizardAction) (n : Nat), 1 ≤ n → n ≤ 50 →
      1 ≤ l.foldl applyAction n ∧ l.foldl applyAction n ≤ 50 := by
    intro l
    induction l with
    | nil => intro n h1 h2; exact ⟨h1, h2⟩
    | cons a t ih =>
      intro n h1 h2
      simp only [List.foldl_cons]
      obtain ⟨g1, g2⟩ := applyAction_bounds n a h1 h2
      exact ih (applyAction n a) g1 g2
  have hb : 1 ≤ start ∧ start ≤ 50 := by
    rcases hstart with rfl | rfl | rfl | rfl <;> simp [defaultNumPeople]
  exact hinv acts start hb.1 hb.2

/-- Witness for C10: five decrements from the default of 4 stay
clamped at 1, inside the bounds. -/
theorem wizard_people_counter_bounds_witness :
    1 ≤ runWizard 4 [WizardAction.dec, WizardAction.dec, WizardAction.dec,
        WizardAction.dec, WizardAction.dec] ∧
    runWizard 4 [WizardAction.dec, WizardAction.dec, WizardAction.dec,
        WizardAction.dec, WizardAction.dec] ≤ 50 :=
  wizard_people_counter_bounds 4 (Or.inr (Or.inr (Or.inr rfl)))
    [WizardAction.dec, WizardAction.dec, WizardAction.dec,
      WizardAction.dec, WizardAction.dec]
